import Mathlib

/-!
Shallow embedding of the redgreen-tdd countdown-timer core.

`Timer` models `src/redgreen/core/timer.py` (the pure state machine) and
the `session*` functions model `src/redgreen/core/session.py` (the Session
manager with JSON persistence).  Python floats are modelled as rationals.
Each operation takes the clock readings it performs (`time.time` as `wall`,
`time.monotonic` as `mono`) as explicit arguments; the several clock reads
inside one operation are modelled as returning the same value, which is the
"up to clock resolution" abstraction the specification itself uses.
The persisted `session.json` file is modelled as an `Option SessionRecord`
(`none` is an absent file), carried alongside the in-memory fields in
`World`; `Session._save` becomes the function `SessionFields._save` and a
write of its result into the `record` component.
-/

/-- `TimerState` enum from timer.py. -/
inductive TimerState where
  | idle
  | running
  | paused
  | expired
deriving DecidableEq

/-- The `.value` string payload of each `TimerState` member. -/
def TimerState.value : TimerState → String
  | .idle => "idle"
  | .running => "running"
  | .paused => "paused"
  | .expired => "expired"

/-- The Python exception kinds raised by the core: `TypeError` and
`ValueError` from `Timer.start` validation, `InvalidStateError` from the
transition guards.  Only the static part of each message is carried. -/
inductive PyError where
  | typeError (msg : String)
  | valueError (msg : String)
  | invalidStateError (msg : String)
deriving DecidableEq

/-- The `Timer` object's fields (timer.py `__init__`). -/
structure Timer where
  _state : TimerState
  _duration_seconds : ℚ
  _original_duration_minutes : ℤ
  _start_time : ℚ
  _remaining_at_pause : ℚ
deriving DecidableEq

/-- A freshly constructed `Timer()`. -/
def Timer.init : Timer := ⟨.idle, 0, 0, 0, 0⟩

/-- `_VALID_START_STATES` from timer.py. -/
def _VALID_START_STATES : List TimerState := [.idle, .expired]

/-- `_VALID_RESTART_STATES` from timer.py. -/
def _VALID_RESTART_STATES : List TimerState := [.running, .paused, .expired]

/-- `Timer._require_state`: raise `InvalidStateError` if the current state
is not in `valid`. -/
def Timer._require_state (t : Timer) (method : String) (valid : List TimerState) :
    Except PyError Unit :=
  if t._state ∈ valid then .ok ()
  else .error (.invalidStateError
    (method ++ "() is not valid from " ++ t._state.value ++ " state"))

/-- `Timer._begin_running`: record the start time and enter RUNNING. -/
def Timer._begin_running (t : Timer) (mono : ℚ) : Timer :=
  { t with _start_time := mono, _state := .running }

/-- `Timer.get_remaining`: remaining seconds, auto-expiring a running timer
whose time is up.  Returns the value together with the (possibly mutated)
timer. -/
def Timer.get_remaining (t : Timer) (mono : ℚ) : ℚ × Timer :=
  if t._state = .running then
    let remaining := t._duration_seconds - (mono - t._start_time)
    if remaining ≤ 0 then
      (0, { t with _remaining_at_pause := 0, _state := .expired })
    else (remaining, t)
  else if t._state = .paused then (t._remaining_at_pause, t)
  else (0, t)

/-- `Timer.start`: validate the duration (the `isinstance(int)` check is
modelled as integrality of the rational, the range check as `1 ≤ m ≤ 60`),
then check the state guard, then begin running. -/
def Timer.start (t : Timer) (duration_minutes mono : ℚ) : Except PyError Timer :=
  if duration_minutes.den ≠ 1 then
    .error (.typeError "duration_minutes must be an integer")
  else if ¬ (1 ≤ duration_minutes ∧ duration_minutes ≤ 60) then
    .error (.valueError "duration_minutes must be between 1 and 60")
  else match t._require_state "start" _VALID_START_STATES with
    | .error e => .error e
    | .ok _ =>
        .ok (({ t with _original_duration_minutes := duration_minutes.num,
                       _duration_seconds := duration_minutes * 60 })._begin_running mono)

/-- `Timer.pause`: query remaining first (auto-expire check), then require
RUNNING, then freeze the remaining time. -/
def Timer.pause (t : Timer) (mono : ℚ) : Except PyError Timer :=
  let t1 := (t.get_remaining mono).2
  match t1._require_state "pause" [.running] with
  | .error e => .error e
  | .ok _ =>
      let elapsed := mono - t1._start_time
      .ok { t1 with _remaining_at_pause := max (t1._duration_seconds - elapsed) 0,
                    _state := .paused }

/-- `Timer.resume`: require PAUSED; the frozen remainder becomes the new
effective duration. -/
def Timer.resume (t : Timer) (mono : ℚ) : Except PyError Timer :=
  match t._require_state "resume" [.paused] with
  | .error e => .error e
  | .ok _ =>
      .ok (({ t with _duration_seconds := t._remaining_at_pause })._begin_running mono)

/-- `Timer.restart`: require RUNNING/PAUSED/EXPIRED; reset the duration to
the original duration. -/
def Timer.restart (t : Timer) (mono : ℚ) : Except PyError Timer :=
  match t._require_state "restart" _VALID_RESTART_STATES with
  | .error e => .error e
  | .ok _ =>
      .ok (({ t with
              _duration_seconds := (t._original_duration_minutes : ℚ) * 60 })._begin_running mono)

/-- The persisted `session.json` payload written by `Session._save`. -/
structure SessionRecord where
  state : String
  duration_minutes : ℤ
  remaining_seconds : ℚ
  started_at : ℚ
deriving DecidableEq

/-- The `Session` object's in-memory fields (session.py `__init__`). -/
structure SessionFields where
  _state : TimerState
  _duration_minutes : ℤ
  _remaining_seconds : ℚ
  _started_at : ℚ
  _monotonic_ref : ℚ
deriving DecidableEq

/-- In-memory session fields together with the persisted record
(`none` models an absent `session.json`). -/
structure World where
  fields : SessionFields
  record : Option SessionRecord
deriving DecidableEq

/-- `_format_remaining` from session.py: `total = int(seconds)` (Python
`int()` truncates toward zero), then `f"{total // 60}:{total % 60:02d}"`
(Python `//`/`%` are floor division and modulus; `total % 60` is therefore
in `[0, 60)` and the `02d` padding is a leading zero for one digit). -/
def _format_remaining (seconds : ℚ) : String :=
  let total : ℤ := if 0 ≤ seconds then Rat.floor seconds else -(Rat.floor (-seconds))
  let s : ℕ := (Int.fmod total 60).toNat
  toString (Int.fdiv total 60) ++ ":" ++
    (if s < 10 then "0" ++ toString s else toString s)

/-- `_ACTIVE_STATES` from session.py. -/
def _ACTIVE_STATES : List TimerState := [.running, .paused]

/-- The record `Session._save` writes: the four fields of the session. -/
def SessionFields._save (s : SessionFields) : SessionRecord :=
  ⟨s._state.value, s._duration_minutes, s._remaining_seconds, s._started_at⟩

/-- `Session._get_remaining`: remaining seconds for the current session. -/
def SessionFields._get_remaining (s : SessionFields) (mono : ℚ) : ℚ :=
  if s._state ≠ .running then s._remaining_seconds
  else max (s._remaining_seconds - (mono - s._monotonic_ref)) 0

/-- `Session._effective_state`: the current state, auto-expiring a running
session whose remaining time is up; returns the state and the (possibly
mutated) fields. -/
def SessionFields._effective_state (s : SessionFields) (mono : ℚ) :
    TimerState × SessionFields :=
  if s._state = .running ∧ s._get_remaining mono ≤ 0 then
    (.expired, { s with _state := .expired })
  else (s._state, s)

/-- `Session._begin_running` on the fields: record both timestamps and
enter RUNNING. -/
def SessionFields._begin_running (s : SessionFields) (wall mono : ℚ) : SessionFields :=
  { s with _started_at := wall, _monotonic_ref := mono, _state := .running }

/-- `Session._begin_running` on the world: mutate the fields, then persist
(`self._save()`). -/
def World._begin_running (w : World) (wall mono : ℚ) : World :=
  let f := w.fields._begin_running wall mono
  { fields := f, record := some f._save }

/-- `Session.start`: raise `InvalidStateError` if the effective state is
active, otherwise set the duration and remaining time and begin running.
Note the source performs no validation of `duration_minutes` here. -/
def sessionStart (w : World) (duration_minutes : ℤ) (wall mono : ℚ) :
    Except PyError (String × World) :=
  let p := w.fields._effective_state mono
  if p.1 ∈ _ACTIVE_STATES then
    .error (.invalidStateError
      ("start() is not valid from " ++ p.2._state.value ++ " state"))
  else
    let f2 := { p.2 with _duration_minutes := duration_minutes,
                         _remaining_seconds := (duration_minutes : ℚ) * 60 }
    let w2 := World._begin_running { fields := f2, record := w.record } wall mono
    .ok ("Session started: " ++ toString duration_minutes ++ " minutes", w2)

/-- `Session.status`: `(message, exit_code)` from the effective state; the
record is untouched (no `_save` on this path in the source). -/
def sessionStatus (w : World) (mono : ℚ) : String × ℤ × World :=
  let p := w.fields._effective_state mono
  let w1 : World := { fields := p.2, record := w.record }
  if p.1 = .running then
    (_format_remaining (p.2._get_remaining mono) ++ " remaining", 0, w1)
  else if p.1 = .paused then
    (_format_remaining p.2._remaining_seconds ++ " remaining (paused)", 0, w1)
  else if p.1 = .expired then ("Session expired", 1, w1)
  else ("No active session", 1, w1)

/-- `Session.pause`: freeze the remaining time, enter PAUSED, stamp the
wall clock, persist.  The source has no state guard on this path. -/
def sessionPause (w : World) (wall mono : ℚ) : String × World :=
  let remaining := w.fields._get_remaining mono
  let f1 := { w.fields with _remaining_seconds := remaining, _state := .paused,
                            _started_at := wall }
  ("Session paused at " ++ _format_remaining remaining ++ " remaining",
   { fields := f1, record := some f1._save })

/-- `Session.resume`: begin running again (the frozen `_remaining_seconds`
is kept as the budget).  The source has no state guard on this path. -/
def sessionResume (w : World) (wall mono : ℚ) : String × World :=
  let w1 := w._begin_running wall mono
  ("Session resumed: " ++ _format_remaining w1.fields._remaining_seconds ++ " remaining",
   w1)

/-- `Session.restart`: reset the remaining time to the original duration
and begin running.  The source has no state guard on this path. -/
def sessionRestart (w : World) (wall mono : ℚ) : String × World :=
  let f1 := { w.fields with _remaining_seconds := (w.fields._duration_minutes : ℚ) * 60 }
  let w1 := World._begin_running { fields := f1, record := w.record } wall mono
  ("Session restarted: " ++ toString w.fields._duration_minutes ++ " minutes", w1)

/-- `Session._load` (plus the `__init__` defaults): reconstruct the
in-memory fields from the persisted record and the current clocks. -/
def sessionLoad (record : Option SessionRecord) (wall mono : ℚ) : SessionFields :=
  match record with
  | none => ⟨.idle, 0, 0, 0, 0⟩
  | some data =>
    let s : SessionFields :=
      ⟨.idle, data.duration_minutes, data.remaining_seconds, data.started_at, 0⟩
    if data.state = "running" then
      let elapsed := wall - data.started_at
      let adjusted := data.remaining_seconds - elapsed
      if adjusted ≤ 0 then { s with _state := .expired, _remaining_seconds := 0 }
      else { s with _state := .running, _remaining_seconds := adjusted,
                    _monotonic_ref := mono }
    else if data.state = "paused" then { s with _state := .paused }
    else if data.state = "expired" then { s with _state := .expired }
    else s

/-!
Model of the file-locking discipline of `Session._save` / `Session._load`.
`_save` runs `open(path, "w")` — which truncates the file at open time —
and only then `fcntl.flock(f, LOCK_EX)` followed by `json.dump`; the lock
is released when the file is closed.  `_load` opens for reading, takes
`flock(f, LOCK_SH)` and reads.  `flock` is advisory: it never prevents the
truncation done by `open`, it only orders lock acquisitions.  A blocked
lock acquisition is modelled by ruling the interleaving out (`none`).
-/

/-- What the record file can hold: the previous record, nothing (just
truncated), or the newly dumped record. -/
inductive FileContent where
  | oldRecord
  | empty
  | newRecord
deriving DecidableEq

/-- One writing process (`_save`) and one reading process (`_load`)
share the record file and the advisory lock. -/
structure FsState where
  content : FileContent
  exHeld : Bool
  shHeld : Bool
  observed : Option FileContent
deriving DecidableEq

/-- The atomic events of `_save` (w…) and `_load` (r…). -/
inductive Ev where
  | wTruncate
  | wLockEx
  | wWrite
  | wUnlock
  | rLockSh
  | rRead
  | rUnlock
deriving DecidableEq, BEq

/-- Semantics of one event.  `wTruncate` (the `open(path, "w")`) succeeds
regardless of locks — `flock` is advisory and has not been called yet at
that point in `_save`.  Lock acquisitions conflict per `flock` semantics;
a conflicting acquisition means that interleaving cannot occur (`none`). -/
def step (s : FsState) : Ev → Option FsState
  | .wTruncate => some { s with content := .empty }
  | .wLockEx => if s.exHeld || s.shHeld then none else some { s with exHeld := true }
  | .wWrite => if s.exHeld then some { s with content := .newRecord } else none
  | .wUnlock => some { s with exHeld := false }
  | .rLockSh => if s.exHeld then none else some { s with shHeld := true }
  | .rRead => if s.shHeld then some { s with observed := some s.content } else none
  | .rUnlock => some { s with shHeld := false }

/-- Run a trace of events from a state; `none` if some event could not
occur there. -/
def execTrace (evs : List Ev) (s : FsState) : Option FsState :=
  evs.foldlM step s

/-- The event order of `Session._save`: `open(path, "w")` truncates, then
`flock(LOCK_EX)`, then `json.dump`, then close releases the lock. -/
def writerSaveEvents : List Ev := [.wTruncate, .wLockEx, .wWrite, .wUnlock]

/-- The event order of `Session._load`: `open(path)`, `flock(LOCK_SH)`,
`json.load`, close. -/
def readerLoadEvents : List Ev := [.rLockSh, .rRead, .rUnlock]

/-- `interleaves as bs cs`: `cs` is an interleaving of `as` and `bs`
(each kept in order). -/
def interleaves : List Ev → List Ev → List Ev → Bool
  | [], [], [] => true
  | _, _, [] => false
  | as, bs, c :: cs =>
    (match as with
     | a :: as2 => a == c && interleaves as2 bs cs
     | [] => false) ||
    (match bs with
     | b :: bs2 => b == c && interleaves as bs2 cs
     | [] => false)

/-- C9: the claim says every write holds the exclusive advisory lock for
the whole write including the truncation of the previous content, so a
concurrent reader can never observe a half-written record.  In the code,
`open(path, "w")` truncates the file before `flock(LOCK_EX)` is acquired:
the interleaving below is valid (every lock acquisition respects `flock`
exclusion, both processes keep their program order) and the reader, holding
the shared lock for its whole read, observes an empty (torn) record. -/
theorem c9_truncation_outside_lock_torn_read :
    interleaves writerSaveEvents readerLoadEvents
      [.wTruncate, .rLockSh, .rRead, .rUnlock, .wLockEx, .wWrite, .wUnlock] = true ∧
    execTrace [.wTruncate, .rLockSh, .rRead, .rUnlock, .wLockEx, .wWrite, .wUnlock]
      ⟨.oldRecord, false, false, none⟩ =
      some ⟨.newRecord, false, false, some .empty⟩ := by
  decide

/-- C1: the claim says every operation invoked on the session from a state
outside its guard set raises `InvalidTransition` and leaves the persisted
record unchanged.  Evaluation at the failing input: `pause()` on an idle
session (no record on disk) raises nothing — `Session.pause` has no state
guard — it transitions Idle to Paused and writes a `paused` record.  The
guard exists only in `Timer.pause`, which `Session` does not call. -/
theorem c1_pause_from_idle_succeeds_and_writes :
    sessionPause ⟨⟨.idle, 0, 0, 0, 0⟩, none⟩ 1000 5 =
      ("Session paused at 0:00 remaining",
       ⟨⟨.paused, 0, 0, 1000, 0⟩, some ⟨"paused", 0, 0, 1000⟩⟩) ∧
    Timer.pause ⟨.idle, 0, 0, 0, 0⟩ 5 =
      .error (.invalidStateError "pause() is not valid from idle state") := by
  constructor
  · simp [sessionPause, SessionFields._get_remaining, SessionFields._save,
          TimerState.value, _format_remaining]
    norm_num [Rat.floor]
    rfl
  · simp [Timer.pause, Timer.get_remaining, Timer._require_state, TimerState.value]

/-- C2: the claim says `Start` with minutes outside `[1,60]` fails with
`InvalidDuration` and never mutates persisted state.  Evaluation at the
failing input: `Session.start(0)` and `Session.start(61)` from Idle both
succeed and overwrite the record — `Session.start` performs no duration
validation; the validation exists only in `Timer.start`, which `Session`
does not call. -/
theorem c2_session_start_skips_duration_validation :
    sessionStart ⟨⟨.idle, 0, 0, 0, 0⟩, none⟩ 0 1000 5 =
      .ok ("Session started: 0 minutes",
        ⟨⟨.running, 0, 0, 1000, 5⟩, some ⟨"running", 0, 0, 1000⟩⟩) ∧
    sessionStart ⟨⟨.idle, 0, 0, 0, 0⟩, none⟩ 61 1000 5 =
      .ok ("Session started: 61 minutes",
        ⟨⟨.running, 61, 3660, 1000, 5⟩, some ⟨"running", 61, 3660, 1000⟩⟩) ∧
    Timer.start Timer.init 0 5 =
      .error (.valueError "duration_minutes must be between 1 and 60") ∧
    Timer.start Timer.init 61 5 =
      .error (.valueError "duration_minutes must be between 1 and 60") := by
  refine ⟨?_, ?_, ?_, ?_⟩
  · simp [sessionStart, SessionFields._effective_state, SessionFields._get_remaining,
          _ACTIVE_STATES, World._begin_running, SessionFields._begin_running,
          SessionFields._save, TimerState.value]
    rfl
  · simp [sessionStart, SessionFields._effective_state, SessionFields._get_remaining,
          _ACTIVE_STATES, World._begin_running, SessionFields._begin_running,
          SessionFields._save, TimerState.value]
    norm_num
    rfl
  · norm_num [Timer.start, Timer.init]
  · norm_num [Timer.start, Timer.init]

/-- C4: the claim says pausing a running countdown whose time is already up
raises `InvalidTransition` naming the expired state rather than succeeding.
`Timer.pause` does exactly that (it queries the remaining time first);
but `Session.pause` — the pause the CLI invokes — has no guard at all and
"pauses" the already-expired countdown at 0:00, persisting a `paused`
record.  Evaluation at the failing input: a 1-minute run, 61 seconds
elapsed. -/
theorem c4_pause_on_expired_countdown :
    Timer.pause ⟨.running, 60, 1, 0, 0⟩ 61 =
      .error (.invalidStateError "pause() is not valid from expired state") ∧
    sessionPause ⟨⟨.running, 1, 60, 0, 0⟩, some ⟨"running", 1, 60, 0⟩⟩ 100 61 =
      ("Session paused at 0:00 remaining",
       ⟨⟨.paused, 1, 0, 100, 0⟩, some ⟨"paused", 1, 0, 100⟩⟩) := by
  constructor
  · simp [Timer.pause, Timer.get_remaining, Timer._require_state, TimerState.value]
    norm_num
    rfl
  · simp [sessionPause, SessionFields._get_remaining, SessionFields._save,
          TimerState.value, _format_remaining]
    norm_num [Rat.floor]
    rfl

/-- C3: reloading a persisted `running` record with stored remaining `r > 0`
after a wall-clock gap `g = wall − started_at`: if `g < r` the session is
reconstructed Running with remaining `r − g`, anchored to the fresh
monotonic reading; if `g ≥ r` it is reconstructed Expired with remaining
forced to 0. -/
theorem c3_load_running_reconciliation (dm : ℤ) (r t wall mono : ℚ) (hr : 0 < r) :
    (wall - t < r →
       sessionLoad (some ⟨"running", dm, r, t⟩) wall mono =
         ⟨.running, dm, r - (wall - t), t, mono⟩) ∧
    (r ≤ wall - t →
       sessionLoad (some ⟨"running", dm, r, t⟩) wall mono =
         ⟨.expired, dm, 0, t, 0⟩) := by
  constructor
  · intro hg
    have hx : ¬ (r - (wall - t) ≤ 0) := by push_neg; linarith
    simp [sessionLoad, hx]
  · intro hg
    have hx : r - (wall - t) ≤ 0 := by linarith
    simp [sessionLoad, hx]

/-- Witness for C3 at a concrete input: stored remaining 60 s, gap 120 s,
so the session reloads as Expired with remaining 0. -/
theorem c3_load_running_reconciliation_witness :
    sessionLoad (some ⟨"running", 10, 60, 0⟩) 120 7 = ⟨.expired, 10, 0, 0, 0⟩ :=
  (c3_load_running_reconciliation 10 60 0 120 7 (by norm_num)).2 (by norm_num)

/-- C5: on a running countdown with remaining time `v > 0`, `Pause` followed
by `Resume` restores remaining time `v` exactly, whatever wall-clock or
monotonic time passes while paused, and the session is Running again. -/
theorem c5_pause_resume_preserves_remaining (w : World) (wall1 mono1 wall2 mono2 : ℚ)
    (hrun : w.fields._state = .running)
    (hv : 0 < w.fields._get_remaining mono1) :
    ((sessionResume ((sessionPause w wall1 mono1).2) wall2 mono2).2).fields._get_remaining
        mono2 = w.fields._get_remaining mono1 ∧
    ((sessionResume ((sessionPause w wall1 mono1).2) wall2 mono2).2).fields._state =
        .running := by
  refine ⟨?_, ?_⟩
  · simp [sessionResume, sessionPause, World._begin_running, SessionFields._begin_running,
          SessionFields._get_remaining, hv.le]
    simp [hrun]
  · simp [sessionResume, sessionPause, World._begin_running, SessionFields._begin_running]

/-- Witness for C5 at a concrete input: a 10-minute session paused at
454 s remaining and resumed much later still has 454 s remaining. -/
theorem c5_pause_resume_preserves_remaining_witness :
    0 < SessionFields._get_remaining ⟨.running, 10, 600, 0, 0⟩ 146 ∧
    ((sessionResume ((sessionPause ⟨⟨.running, 10, 600, 0, 0⟩,
        some ⟨"running", 10, 600, 0⟩⟩ 1146 146).2) 99999 5555).2).fields._get_remaining
      5555 = SessionFields._get_remaining ⟨.running, 10, 600, 0, 0⟩ 146 :=
  ⟨by norm_num [SessionFields._get_remaining],
   (c5_pause_resume_preserves_remaining ⟨⟨.running, 10, 600, 0, 0⟩,
      some ⟨"running", 10, 600, 0⟩⟩ 1146 146 99999 5555 rfl
      (by norm_num [SessionFields._get_remaining])).1⟩

/-- C6: from any of Running, Paused, Expired, `Restart` resets the remaining
time to `duration_minutes · 60` seconds (the original duration, which it
leaves unchanged), moves the session to Running, and persists that; the
`Timer` state machine does the same under its guard. -/
theorem c6_restart_resets_to_original_duration (w : World) (wall mono : ℚ) (t : Timer)
    (mono2 : ℚ)
    (hw : w.fields._state = .running ∨ w.fields._state = .paused ∨
          w.fields._state = .expired)
    (ht : t._state = .running ∨ t._state = .paused ∨ t._state = .expired) :
    ((sessionRestart w wall mono).2).fields._state = .running ∧
    ((sessionRestart w wall mono).2).fields._remaining_seconds =
        (w.fields._duration_minutes : ℚ) * 60 ∧
    ((sessionRestart w wall mono).2).fields._duration_minutes =
        w.fields._duration_minutes ∧
    (sessionRestart w wall mono).2.record =
        some ⟨"running", w.fields._duration_minutes,
              (w.fields._duration_minutes : ℚ) * 60, wall⟩ ∧
    t.restart mono2 =
        .ok { t with _duration_seconds := (t._original_duration_minutes : ℚ) * 60,
                     _start_time := mono2, _state := .running } := by
    refine ⟨?_, ?_, ?_, ?_, ?_⟩ <;>
      first
      | simp [sessionRestart, World._begin_running, SessionFields._begin_running,
              SessionFields._save, TimerState.value]
      | · have hmem : t._state ∈ _VALID_RESTART_STATES := by
            rcases ht with h | h | h <;> simp [_VALID_RESTART_STATES, h]
          simp [Timer.restart, Timer._require_state, hmem, Timer._begin_running]

/-- Witness for C6 at a concrete input: a paused 10-minute session with
454 s left restarts to 600 s remaining, Running, persisted. -/
theorem c6_restart_resets_to_original_duration_witness :
    ((sessionRestart ⟨⟨.paused, 10, 454, 0, 0⟩, some ⟨"paused", 10, 454, 0⟩⟩
        900 300).2).fields._state = .running ∧
    ((sessionRestart ⟨⟨.paused, 10, 454, 0, 0⟩, some ⟨"paused", 10, 454, 0⟩⟩
        900 300).2).fields._remaining_seconds = ((10 : ℤ) : ℚ) * 60 :=
  ⟨(c6_restart_resets_to_original_duration
      ⟨⟨.paused, 10, 454, 0, 0⟩, some ⟨"paused", 10, 454, 0⟩⟩ 900 300
      ⟨.paused, 600, 10, 0, 454⟩ 300 (Or.inr (Or.inl rfl)) (Or.inr (Or.inl rfl))).1,
   (c6_restart_resets_to_original_duration
      ⟨⟨.paused, 10, 454, 0, 0⟩, some ⟨"paused", 10, 454, 0⟩⟩ 900 300
      ⟨.paused, 600, 10, 0, 454⟩ 300 (Or.inr (Or.inl rfl)) (Or.inr (Or.inl rfl))).2.1⟩

/-- C7: `status()` is total (it is a function) and its `(message, exit
code)` is fixed by the effective state: the running/expired split of a
running session follows the sign of `remaining − elapsed`, paused and idle
report their fixed messages, and the `M:SS` rendering truncates seconds and
zero-pads (454 s is "7:34", 5 s is "0:05"). -/
theorem c7_status_by_effective_state (w : World) (mono : ℚ) :
    (w.fields._state = .running →
      0 < w.fields._remaining_seconds - (mono - w.fields._monotonic_ref) →
      sessionStatus w mono =
        (_format_remaining (w.fields._remaining_seconds - (mono - w.fields._monotonic_ref))
           ++ " remaining", 0, w)) ∧
    (w.fields._state = .running →
      w.fields._remaining_seconds - (mono - w.fields._monotonic_ref) ≤ 0 →
      sessionStatus w mono =
        ("Session expired", 1, ⟨{ w.fields with _state := .expired }, w.record⟩)) ∧
    (w.fields._state = .paused →
      sessionStatus w mono =
        (_format_remaining w.fields._remaining_seconds ++ " remaining (paused)", 0, w)) ∧
    (w.fields._state = .expired →
      sessionStatus w mono = ("Session expired", 1, w)) ∧
    (w.fields._state = .idle →
      sessionStatus w mono = ("No active session", 1, w)) ∧
    _format_remaining 454 = "7:34" ∧ _format_remaining 5 = "0:05" := by
  refine ⟨?_, ?_, ?_, ?_, ?_, ?_, ?_⟩
  · intro h1 h2
    have hgr : w.fields._get_remaining mono
        = w.fields._remaining_seconds - (mono - w.fields._monotonic_ref) := by
      simp [SessionFields._get_remaining, h1]
      linarith
    simp [sessionStatus, SessionFields._effective_state, h1, hgr, not_le.mpr h2]
  · intro h1 h2
    have hgr : w.fields._get_remaining mono = 0 := by
      simp [SessionFields._get_remaining, h1]
      linarith
    simp [sessionStatus, SessionFields._effective_state, h1, hgr]
  · intro h1
    simp [sessionStatus, SessionFields._effective_state, h1]
  · intro h1
    simp [sessionStatus, SessionFields._effective_state, h1]
  · intro h1
    simp [sessionStatus, SessionFields._effective_state, h1]
  · norm_num [_format_remaining, Rat.floor]
    rfl
  · norm_num [_format_remaining, Rat.floor]
    rfl

/-- Witness for C7 at a concrete input: a fresh idle session reports
"No active session" with exit code 1. -/
theorem c7_status_by_effective_state_witness :
    sessionStatus ⟨⟨.idle, 0, 0, 0, 0⟩, none⟩ 0 =
      ("No active session", 1, ⟨⟨.idle, 0, 0, 0, 0⟩, none⟩) :=
  (c7_status_by_effective_state ⟨⟨.idle, 0, 0, 0, 0⟩, none⟩ 0).2.2.2.2.1 rfl

/-- `Timer.get_remaining` never changes `_original_duration_minutes`. -/
theorem Timer.get_remaining_keeps_original (t : Timer) (mono : ℚ) :
    ((t.get_remaining mono).2)._original_duration_minutes =
      t._original_duration_minutes := by
  simp only [Timer.get_remaining]
  split
  · split <;> rfl
  · split <;> rfl

/-- C8: `Pause` and `Resume` leave the original duration untouched, at both
layers: `Session.pause`/`Session.resume` keep `_duration_minutes`, and
`Timer.pause`/`Timer.resume`, whenever they succeed, keep
`_original_duration_minutes`. -/
theorem c8_pause_resume_leave_duration (w : World) (wall mono wall2 mono2 now now2 : ℚ)
    (t u t2 u2 : Timer) :
    ((sessionPause w wall mono).2).fields._duration_minutes =
        w.fields._duration_minutes ∧
    ((sessionResume w wall2 mono2).2).fields._duration_minutes =
        w.fields._duration_minutes ∧
    (t.pause now = .ok t2 →
        t2._original_duration_minutes = t._original_duration_minutes) ∧
    (u.resume now2 = .ok u2 →
        u2._original_duration_minutes = u._original_duration_minutes) := by
  refine ⟨?_, ?_, ?_, ?_⟩
  · simp [sessionPause]
  · simp [sessionResume, World._begin_running, SessionFields._begin_running]
  · intro h
    simp only [Timer.pause] at h
    cases hx : Timer._require_state ((t.get_remaining now).2) "pause" [TimerState.running] with
    | error e => rw [hx] at h; simp at h
    | ok v =>
        rw [hx] at h
        injection h with h2
        rw [← h2]
        simp [Timer.get_remaining_keeps_original]
  · intro h
    unfold Timer.resume at h
    cases hx : Timer._require_state u "resume" [TimerState.paused] with
    | error e => rw [hx] at h; simp at h
    | ok v =>
        rw [hx] at h
        injection h with h2
        rw [← h2]
        rfl

/-- Witness for C8 at concrete inputs: a successful pause (at 50 s left of
a 60 s run) and a successful resume both keep the original 7 minutes. -/
theorem c8_pause_resume_leave_duration_witness :
    ((sessionPause ⟨⟨.running, 10, 600, 0, 0⟩, some ⟨"running", 10, 600, 0⟩⟩
        1146 146).2).fields._duration_minutes = (10 : ℤ) ∧
    (Timer._original_duration_minutes ⟨.paused, 60, 7, 0, 50⟩ =
     Timer._original_duration_minutes ⟨.running, 60, 7, 0, 0⟩) ∧
    (Timer._original_duration_minutes ⟨.running, 50, 7, 20, 50⟩ =
     Timer._original_duration_minutes ⟨.paused, 60, 7, 0, 50⟩) := by
  have h := c8_pause_resume_leave_duration
    ⟨⟨.running, 10, 600, 0, 0⟩, some ⟨"running", 10, 600, 0⟩⟩ 1146 146 99 5 10 20
    ⟨.running, 60, 7, 0, 0⟩ ⟨.paused, 60, 7, 0, 50⟩ ⟨.paused, 60, 7, 0, 50⟩
    ⟨.running, 50, 7, 20, 50⟩
  refine ⟨h.1, h.2.2.1 ?_, h.2.2.2 ?_⟩
  · simp [Timer.pause, Timer.get_remaining, Timer._require_state]
    norm_num
  · simp [Timer.resume, Timer._require_state, Timer._begin_running]

/-- C10: `status()` never writes the persisted record: the on-disk record
component is returned unchanged from every branch, even when the lazy
expiration check flips the in-memory state of an exhausted running session
to Expired. -/
theorem c10_status_never_saves (w : World) (mono : ℚ) :
    ((sessionStatus w mono).2.2).record = w.record ∧
    (w.fields._state = .running →
      w.fields._remaining_seconds - (mono - w.fields._monotonic_ref) ≤ 0 →
      ((sessionStatus w mono).2.2).fields._state = .expired) := by
  constructor
  · simp only [sessionStatus]
    split
    · rfl
    · split
      · rfl
      · split <;> rfl
  · intro h1 h2
    have hgr : w.fields._get_remaining mono = 0 := by
      simp [SessionFields._get_remaining, h1]
      linarith
    simp [sessionStatus, SessionFields._effective_state, h1, hgr]

/-- Witness for C10 at a concrete input: an exhausted running session (60 s
budget, 61 s elapsed) flips to Expired in memory while the on-disk record
still says `running`. -/
theorem c10_status_never_saves_witness :
    ((sessionStatus ⟨⟨.running, 1, 60, 0, 0⟩, some ⟨"running", 1, 60, 0⟩⟩ 61).2.2).record
        = some ⟨"running", 1, 60, 0⟩ ∧
    ((sessionStatus ⟨⟨.running, 1, 60, 0, 0⟩,
        some ⟨"running", 1, 60, 0⟩⟩ 61).2.2).fields._state = .expired := by
  have h := c10_status_never_saves
    ⟨⟨.running, 1, 60, 0, 0⟩, some ⟨"running", 1, 60, 0⟩⟩ 61
  exact ⟨h.1, h.2 rfl (by norm_num)⟩
